import Mathlib

/-!
Shallow embedding of the reward/yield accounting engine of the twist
repository (Solana programs under `twist-blockchain/programs`), together
with theorems checking the natural-language specification against it.

Machine integers are modelled as `Nat` with explicit modulus where the
source performs a narrowing cast, and checked arithmetic (`checked_add`,
`checked_mul`, ...) is modelled by `Option`.  Fallible instruction
handlers return `Except Err`; an `Except.error` result models the
all-or-nothing abort of the hosting chain (no partial state is
committed).  Token-balance movements (transfer / mint / burn CPIs) are
outside the modelled state, as in the spec's external-interface section.
-/

namespace Twist

/-- `2 ^ 64`, the modulus of `u64`. -/
def U64 : Nat := 2 ^ 64

/-- `2 ^ 128`, the modulus of `u128`. -/
def U128 : Nat := 2 ^ 128

/-- `PRECISION` from `bond-pool-factory/src/utils/mod.rs` (1e12). -/
def PRECISION : Nat := 1000000000000

/-- `u64::checked_add`. -/
def checkedAdd64 (a b : Nat) : Option Nat :=
  if a + b < U64 then some (a + b) else none

/-- `u128::checked_add`. -/
def checkedAdd128 (a b : Nat) : Option Nat :=
  if a + b < U128 then some (a + b) else none

/-- `checked_sub` on unsigned integers (any width). -/
def checkedSub (a b : Nat) : Option Nat :=
  if b ≤ a then some (a - b) else none

/-- `u128::checked_mul`. -/
def checkedMul128 (a b : Nat) : Option Nat :=
  if a * b < U128 then some (a * b) else none

/-- `checked_div` on unsigned integers: `none` exactly on division by zero. -/
def checkedDiv (a b : Nat) : Option Nat :=
  if b = 0 then none else some (a / b)

/-- Error codes surfaced by the modelled instruction handlers. -/
inductive Err where
  | PoolNotActive
  | FactoryPaused
  | StakeBelowMinimum
  | StakeAboveMaximum
  | MathOverflow
  | AccountAlreadyInitialized
  | AccountNotFound
  | StillLocked
  | InsufficientShares
  | NoStakers
  | PoolPaused
  | UnauthorizedCaller
  | AdjustmentTooSoon
  deriving DecidableEq, Repr

/-- `BondPool` account state (`bond-pool-factory/src/state/bond_pool.rs`);
addresses, seeds and reserved bytes are omitted. -/
structure BondPool where
  min_stake_amount : Nat
  max_stake_amount : Nat
  lock_duration : Int
  total_staked : Nat
  total_shares : Nat
  total_yield_accumulated : Nat
  total_yield_burned : Nat
  total_yield_distributed : Nat
  reward_per_share : Nat
  yield_integral : Nat
  active : Bool
  finalized : Bool
  paused : Bool
  staker_count : Nat
  deriving DecidableEq, Repr

/-- `BondPosition` account state (`bond-pool-factory/src/state/bond_position.rs`);
the owner key is modelled as a `Nat` identity. -/
structure BondPosition where
  owner : Nat
  amount_staked : Nat
  shares : Nat
  stake_timestamp : Int
  unlock_timestamp : Int
  reward_debt : Nat
  rewards_claimed : Nat
  last_claim_timestamp : Int
  claimed_cursor : Nat
  position_number : Nat
  auto_compound : Bool
  tier : Nat
  deriving DecidableEq, Repr

/-- `calculate_tier` from `bond-pool-factory/src/utils/mod.rs`. -/
def calculate_tier (amount : Nat) : Nat :=
  if amount ≥ 100000000000000 then 4
  else if amount ≥ 50000000000000 then 3
  else if amount ≥ 10000000000000 then 2
  else if amount ≥ 1000000000000 then 1
  else 0

/-- `BondPool::calculate_pending_rewards`: the share-method pending reward.
Both `checked_mul(..).unwrap_or(0)` and `checked_sub(..).unwrap_or(0)` from
the source are modelled by `Option.getD _ 0`; the trailing `% U64` models
the `as u64` narrowing cast. -/
def BondPool.calculate_pending_rewards (pool : BondPool) (shares reward_debt : Nat) : Nat :=
  let prod := (checkedMul128 shares pool.reward_per_share).getD 0
  let accumulated := (checkedDiv prod PRECISION).getD 0
  ((checkedSub accumulated reward_debt).getD 0) % U64

/-- `BondPosition::can_withdraw`. -/
def BondPosition.can_withdraw (p : BondPosition) (now : Int) : Bool :=
  now ≥ p.unlock_timestamp

/-- Combined factory + pool + positions state acted on by the
bond-pool-factory instructions.  Factory fields are those read or written
by the modelled handlers. -/
structure Sys where
  factory_paused : Bool
  burn_percentage_bps : Nat
  current_tvl : Nat
  total_value_locked : Nat
  total_burned_from_yield : Nat
  total_distributed_to_stakers : Nat
  pool : BondPool
  positions : List BondPosition
  deriving DecidableEq, Repr

/-- Resolve the `BondPosition` PDA of `staker` for the pool (seed lookup). -/
def findPosition (s : Sys) (staker : Nat) : Option BondPosition :=
  s.positions.find? (fun p => p.owner == staker)

/-- Sum of staked principal over the open positions. -/
def sumPrincipal (positions : List BondPosition) : Nat :=
  positions.foldl (fun acc p => acc + p.amount_staked) 0

/-- Sum of shares over the open positions. -/
def sumShares (positions : List BondPosition) : Nat :=
  positions.foldl (fun acc p => acc + p.shares) 0

/-- Share issuance of `stake_in_pool`: 1:1 bootstrap when `total_shares == 0`,
otherwise `amount * total_shares / total_staked` on `u128` with the
`as u64` narrowing cast. -/
def sharesForDeposit (pool : BondPool) (amount : Nat) : Option Nat :=
  if pool.total_shares = 0 then some amount
  else do
    let prod ← checkedMul128 amount pool.total_shares
    let q ← checkedDiv prod pool.total_staked
    some (q % U64)

/-- `position.reward_debt` initialisation: `shares * reward_per_share / PRECISION`
with checked `u128` arithmetic. -/
def rewardDebtOf (pool : BondPool) (shares : Nat) : Option Nat := do
  let prod ← checkedMul128 shares pool.reward_per_share
  checkedDiv prod PRECISION

/-- The arithmetic and state-update tail of the `stake_in_pool` handler;
every `None` corresponds to a `MathOverflow` abort in the source. -/
def stakeCore (s : Sys) (staker amount : Nat) (now : Int) : Option Sys := do
  let pool := s.pool
  let shares ← sharesForDeposit pool amount
  let reward_debt ← rewardDebtOf pool shares
  let position : BondPosition :=
    { owner := staker
      amount_staked := amount
      shares := shares
      stake_timestamp := now
      unlock_timestamp := now + pool.lock_duration
      reward_debt := reward_debt
      rewards_claimed := 0
      last_claim_timestamp := now
      claimed_cursor := pool.yield_integral
      position_number := pool.staker_count
      auto_compound := false
      tier := calculate_tier amount }
  let total_staked ← checkedAdd64 pool.total_staked amount
  let total_shares ← checkedAdd64 pool.total_shares shares
  let current_tvl ← checkedAdd64 s.current_tvl amount
  let tvl ← checkedAdd128 s.total_value_locked amount
  some { s with
    pool := { pool with
      total_staked := total_staked
      total_shares := total_shares
      staker_count := pool.staker_count + 1 }
    positions := s.positions ++ [position]
    current_tvl := current_tvl
    total_value_locked := tvl }

/-- `stake_in_pool` handler (`instructions/stake_in_pool.rs`).  The leading
check models the Anchor `init` constraint on the position PDA, which fails
when the account already exists; `update_pool_rewards` is a no-op in the
source and is therefore not represented. -/
def stake_in_pool (s : Sys) (staker amount : Nat) (now : Int) : Except Err Sys :=
  if (findPosition s staker).isSome then .error .AccountAlreadyInitialized
  else if !(s.pool.active && !s.pool.finalized && !s.pool.paused) then .error .PoolNotActive
  else if s.factory_paused then .error .FactoryPaused
  else if amount < s.pool.min_stake_amount then .error .StakeBelowMinimum
  else if 0 < s.pool.max_stake_amount ∧ s.pool.max_stake_amount < amount then
    .error .StakeAboveMaximum
  else
    match stakeCore s staker amount now with
    | some s' => .ok s'
    | none => .error .MathOverflow

/-- Arithmetic and state-update tail of the `withdraw_stake` handler.
`claim_rewards_internal` in the source transfers the pending amount but
never writes the position, so it contributes no state change here.  The
final positions update models the Anchor `close = withdrawer` constraint,
which closes the position account unconditionally. -/
def withdrawCore (s : Sys) (withdrawer shares_to_withdraw : Nat) (position : BondPosition) :
    Option Sys := do
  let pool := s.pool
  let withdrawing_all := shares_to_withdraw == position.shares
  let prod ← checkedMul128 shares_to_withdraw pool.total_staked
  let q ← checkedDiv prod pool.total_shares
  let amount_to_return := q % U64
  let total_shares ← checkedSub pool.total_shares shares_to_withdraw
  let total_staked ← checkedSub pool.total_staked amount_to_return
  let current_tvl ← checkedSub s.current_tvl amount_to_return
  let staker_count := if withdrawing_all then pool.staker_count - 1 else pool.staker_count
  some { s with
    pool := { pool with
      total_shares := total_shares
      total_staked := total_staked
      staker_count := staker_count }
    current_tvl := current_tvl
    positions := s.positions.filter (fun p => p.owner != withdrawer) }

/-- `withdraw_stake` handler (`instructions/withdraw_stake.rs`). -/
def withdraw_stake (s : Sys) (withdrawer shares_to_withdraw : Nat) (now : Int) :
    Except Err Sys :=
  match findPosition s withdrawer with
  | none => .error .AccountNotFound
  | some position =>
    if !position.can_withdraw now then .error .StillLocked
    else if position.shares < shares_to_withdraw then .error .InsufficientShares
    else
      match withdrawCore s withdrawer shares_to_withdraw position with
      | some s' => .ok s'
      | none => .error .MathOverflow

/-- `calculate_pending_rewards_integral` from `instructions/claim_rewards.rs`:
`(yield_integral − claimed_cursor) * amount_staked / 2^64` with checked
`u128` arithmetic and the `as u64` narrowing cast. -/
def calculate_pending_rewards_integral (position : BondPosition) (pool : BondPool) :
    Option Nat := do
  let yield_delta ← checkedSub pool.yield_integral position.claimed_cursor
  let prod ← checkedMul128 yield_delta position.amount_staked
  let q ← checkedDiv prod (2 ^ 64)
  some (q % U64)

/-- Position update performed by a paying `claim_rewards`. -/
def claimUpdate (s : Sys) (claimant pending : Nat) (now : Int) : Option Sys := do
  let position ← findPosition s claimant
  let prod ← checkedMul128 position.shares s.pool.reward_per_share
  let reward_debt ← checkedDiv prod PRECISION
  let rewards_claimed ← checkedAdd64 position.rewards_claimed pending
  some { s with
    positions := s.positions.map (fun p =>
      if p.owner == claimant then
        { p with
          reward_debt := reward_debt
          claimed_cursor := s.pool.yield_integral
          rewards_claimed := rewards_claimed
          last_claim_timestamp := now }
      else p) }

/-- `claim_rewards` handler (`instructions/claim_rewards.rs`).  Returns the
post state and the amount transferred to the claimant. -/
def claim_rewards (s : Sys) (claimant : Nat) (now : Int) : Except Err (Sys × Nat) :=
  match findPosition s claimant with
  | none => .error .AccountNotFound
  | some position =>
    match calculate_pending_rewards_integral position s.pool with
    | none => .error .MathOverflow
    | some pending_integral =>
      if max pending_integral
          (s.pool.calculate_pending_rewards position.shares position.reward_debt) = 0 then
        .ok (s, 0)
      else
        match claimUpdate s claimant
            (max pending_integral
              (s.pool.calculate_pending_rewards position.shares position.reward_debt)) now with
        | some s' => .ok (s', max pending_integral
            (s.pool.calculate_pending_rewards position.shares position.reward_debt))
        | none => .error .MathOverflow

/-- Arithmetic and state-update tail of the `distribute_yield` handler. -/
def distributeCore (s : Sys) (burn_amount : Nat) : Option Sys := do
  let pool := s.pool
  let prod1 ← checkedMul128 burn_amount s.burn_percentage_bps
  let q1 ← checkedDiv prod1 10000
  let burn_portion := q1 % U64
  let staker_portion ← checkedSub burn_amount burn_portion
  let prod2 ← checkedMul128 staker_portion PRECISION
  let reward_increment ← checkedDiv prod2 pool.total_shares
  let reward_per_share ← checkedAdd128 pool.reward_per_share reward_increment
  let prod3 ← checkedMul128 staker_portion (2 ^ 64)
  let yield_delta ← checkedDiv prod3 pool.total_staked
  let yield_integral ← checkedAdd128 pool.yield_integral yield_delta
  let tya ← checkedAdd128 pool.total_yield_accumulated burn_amount
  let tyb ← checkedAdd128 pool.total_yield_burned burn_portion
  let tyd ← checkedAdd128 pool.total_yield_distributed staker_portion
  let fb ← checkedAdd128 s.total_burned_from_yield burn_portion
  let fd ← checkedAdd128 s.total_distributed_to_stakers staker_portion
  some { s with
    pool := { pool with
      reward_per_share := reward_per_share
      yield_integral := yield_integral
      total_yield_accumulated := tya
      total_yield_burned := tyb
      total_yield_distributed := tyd }
    total_burned_from_yield := fb
    total_distributed_to_stakers := fd }

/-- `distribute_yield` handler (`instructions/distribute_yield.rs`).
`vau_signer` models the presence of the VAU processor signer. -/
def distribute_yield (s : Sys) (burn_amount : Nat) (vau_signer : Bool) : Except Err Sys :=
  if !vau_signer then .error .UnauthorizedCaller
  else if s.pool.total_shares = 0 then .error .NoStakers
  else if s.pool.paused then .error .PoolPaused
  else
    match distributeCore s burn_amount with
    | some s' => .ok s'
    | none => .error .MathOverflow

/-- `safe_mul` from `twist-token/src/utils/math.rs` (`u64::checked_mul`). -/
def safe_mul (a b : Nat) : Except Err Nat :=
  if a * b < U64 then .ok (a * b) else .error .MathOverflow

/-- `safe_div` from `twist-token/src/utils/math.rs`. -/
def safe_div (a b : Nat) : Except Err Nat :=
  if b = 0 then .error .MathOverflow else .ok (a / b)

/-- `safe_add` from `twist-token/src/utils/math.rs` (`u64::checked_add`). -/
def safe_add (a b : Nat) : Except Err Nat :=
  if a + b < U64 then .ok (a + b) else .error .MathOverflow

/-- `safe_sub` from `twist-token/src/utils/math.rs` (`u64::checked_sub`). -/
def safe_sub (a b : Nat) : Except Err Nat :=
  if b ≤ a then .ok (a - b) else .error .MathOverflow

/-- `StakeEntry` from `twist-token/src/state/stake_state.rs`. -/
structure StakeEntry where
  amount : Nat
  start_timestamp : Int
  lock_period : Int
  apy_bps : Nat
  last_claim_timestamp : Int
  total_earned : Nat
  withdrawn : Bool
  deriving DecidableEq, Repr

/-- `StakeEntry::is_unlocked`. -/
def StakeEntry.is_unlocked (e : StakeEntry) (now : Int) : Bool :=
  now ≥ e.start_timestamp + e.lock_period

/-- `StakeEntry::calculate_early_unstake_penalty`.  In the source the
division is on `u128` after casting (well-defined for `0 < lock_period`
and a locked entry, where `time_remaining > 0`); the trailing `% U64`
models the `as u64` narrowing cast. -/
def StakeEntry.calculate_early_unstake_penalty (e : StakeEntry) (now : Int) : Nat :=
  if e.is_unlocked now then 0
  else
    let time_remaining := (e.start_timestamp + e.lock_period - now).toNat
    let penalty_rate : Nat :=
      if e.lock_period ≥ 365 * 86400 then 2000
      else if e.lock_period ≥ 180 * 86400 then 1500
      else if e.lock_period ≥ 90 * 86400 then 1000
      else 500
    let time_scale := time_remaining * 10000 / e.lock_period.toNat
    let scaled_penalty := penalty_rate * time_scale / 10000
    (e.amount * scaled_penalty / 10000) % U64

/-- `AdjustmentType` from `twist-token/src/state/pid_controller.rs`. -/
inductive AdjustmentType where
  | NoAdjustment
  | Mint
  | Burn
  deriving DecidableEq, Repr

/-- `SupplyAdjustment` (the human-readable `reason` string is omitted). -/
structure SupplyAdjustment where
  adjustment_type : AdjustmentType
  amount : Nat
  deriving DecidableEq, Repr

/-- `PIDControllerState` (`twist-token/src/state/pid_controller.rs`);
authority key and bump are omitted. -/
structure PIDControllerState where
  kp : Int
  ki : Int
  kd : Int
  integral : Int
  previous_error : Int
  last_update_timestamp : Int
  integral_min : Int
  integral_max : Int
  output_min : Int
  output_max : Int
  target_price : Nat
  price_tolerance_bps : Nat
  max_mint_rate_bps : Nat
  max_burn_rate_bps : Nat
  last_adjustment_timestamp : Int
  adjustment_cooldown : Int
  total_minted : Nat
  total_burned : Nat
  adjustment_count : Nat
  last_adjustment_amount : Int
  last_adjustment_type : AdjustmentType
  deriving DecidableEq, Repr

/-- `i128::saturating_add`. -/
def saturatingAddI128 (a b : Int) : Int :=
  max (-(2 ^ 127)) (min (2 ^ 127 - 1) (a + b))

/-- Rust `clamp` (well-defined for `lo ≤ hi`, where Rust does not panic). -/
def clampInt (x lo hi : Int) : Int := min hi (max lo x)

/-- Two's-complement reinterpretation of a value `< 2^64` as `i64`
(the `as i64` narrowing cast). -/
def toI64 (n : Nat) : Int :=
  if n % U64 < 2 ^ 63 then ((n % U64 : Nat) : Int) else ((n % U64 : Nat) : Int) - (U64 : Int)

/-- The PID price error `target_price − current_price` (i64). -/
def pidErrorOf (st : PIDControllerState) (current_price : Nat) : Int :=
  (st.target_price : Int) - (current_price : Int)

/-- The PID time delta since the last update, floored at 1. -/
def pidDtOf (st : PIDControllerState) (current_timestamp : Int) : Int :=
  max (current_timestamp - st.last_update_timestamp) 1

/-- The integral term: saturating accumulation then anti-windup clamp. -/
def pidIntegralOf (st : PIDControllerState) (error dt : Int) : Int :=
  clampInt (saturatingAddI128 st.integral (error * dt)) st.integral_min st.integral_max

/-- The derivative term (scaled by 1000 for precision). -/
def pidDerivativeOf (st : PIDControllerState) (error dt : Int) : Int :=
  if 0 < st.last_update_timestamp then Int.tdiv ((error - st.previous_error) * 1000) dt
  else 0

/-- The PID output in basis points, clamped to the output limits. -/
def pidOutputBps (st : PIDControllerState) (error dt : Int) : Int :=
  clampInt (Int.tdiv (st.kp * error) 10000 + Int.tdiv (st.ki * pidIntegralOf st error dt) 10000
    + Int.tdiv (st.kd * pidDerivativeOf st error dt) 10000) st.output_min st.output_max

/-- Burn/mint branch selection with the branch's signed max rate:
positive output burns (capped by `max_burn_rate_bps`), otherwise mints
(capped by `max_mint_rate_bps`). -/
def pidBranch (st : PIDControllerState) (error dt : Int) : AdjustmentType × Int :=
  if 0 < pidOutputBps st error dt then (.Burn, (st.max_burn_rate_bps : Int))
  else (.Mint, -(st.max_mint_rate_bps : Int))

/-- The adjustment token amount: `output_bps` clamped to `±max_rate`,
applied to the current supply, with the `as u64` narrowing cast. -/
def pidAmount (st : PIDControllerState) (error dt : Int) (current_supply : Nat) : Nat :=
  (current_supply * (clampInt (pidOutputBps st error dt)
    (-(((pidBranch st error dt).2.natAbs : Nat) : Int))
    (((pidBranch st error dt).2.natAbs : Nat) : Int)).natAbs / 10000) % U64

/-- `PIDControllerState::calculate_adjustment`.  Signed machine arithmetic
is modelled on `Int` with Rust's truncating division (`Int.tdiv`); the
model is faithful on the non-wrapping parameter ranges assumed in the
theorems below.  The source's intermediate `let` bindings are named
`pid*` definitions above.  Token mint/burn CPIs are outside the modelled
state. -/
def PIDControllerState.calculate_adjustment (st : PIDControllerState)
    (current_price current_supply : Nat) (current_timestamp : Int) :
    Except Err (PIDControllerState × SupplyAdjustment) :=
  if current_timestamp - st.last_adjustment_timestamp < st.adjustment_cooldown then
    .error .AdjustmentTooSoon
  else if ((pidErrorOf st current_price).natAbs : Int) <
      Int.tdiv ((st.target_price : Int) * (st.price_tolerance_bps : Int)) 10000 then
    .ok (st, { adjustment_type := .NoAdjustment, amount := 0 })
  else
    .ok ({ st with
      integral := pidIntegralOf st (pidErrorOf st current_price) (pidDtOf st current_timestamp)
      previous_error := pidErrorOf st current_price
      last_update_timestamp := current_timestamp
      last_adjustment_timestamp := current_timestamp
      last_adjustment_amount := toI64 (pidAmount st (pidErrorOf st current_price)
        (pidDtOf st current_timestamp) current_supply)
      last_adjustment_type := (pidBranch st (pidErrorOf st current_price)
        (pidDtOf st current_timestamp)).1
      adjustment_count := st.adjustment_count + 1
      total_minted :=
        if (pidBranch st (pidErrorOf st current_price) (pidDtOf st current_timestamp)).1 =
            .Mint then
          st.total_minted + pidAmount st (pidErrorOf st current_price)
            (pidDtOf st current_timestamp) current_supply
        else st.total_minted
      total_burned :=
        if (pidBranch st (pidErrorOf st current_price) (pidDtOf st current_timestamp)).1 =
            .Burn then
          st.total_burned + pidAmount st (pidErrorOf st current_price)
            (pidDtOf st current_timestamp) current_supply
        else st.total_burned },
    { adjustment_type := (pidBranch st (pidErrorOf st current_price)
        (pidDtOf st current_timestamp)).1
      amount := pidAmount st (pidErrorOf st current_price)
        (pidDtOf st current_timestamp) current_supply })

/-- `CircuitBreakerSeverity` from `twist-token/src/state/circuit_breaker.rs`. -/
inductive CircuitBreakerSeverity where
  | Low
  | Medium
  | High
  | Critical
  deriving DecidableEq, Repr

/-- `CircuitBreakerState` thresholds and historical snapshots
(`twist-token/src/state/circuit_breaker.rs`); trip metadata, cooldowns and
authority are omitted as the modelled checks do not read them. -/
structure CircuitBreakerState where
  price_volatility_threshold_bps : Nat
  volume_spike_multiplier : Nat
  supply_change_threshold_bps : Nat
  oracle_divergence_threshold_bps : Nat
  liquidity_drain_threshold_bps : Nat
  price_1h_ago : Nat
  price_24h_ago : Nat
  volume_1h_ago : Nat
  volume_24h_ago : Nat
  supply_24h_ago : Nat
  liquidity_1h_ago : Nat
  deriving DecidableEq, Repr

/-- The 1-hour volatility magnitude computed by `check_price_volatility`. -/
def volatility1h (cb : CircuitBreakerState) (current_price : Nat) : Nat :=
  if 0 < cb.price_1h_ago then
    (if cb.price_1h_ago < current_price then current_price - cb.price_1h_ago
     else cb.price_1h_ago - current_price) * 10000 / cb.price_1h_ago
  else 0

/-- `CircuitBreakerState::check_price_volatility`. -/
def CircuitBreakerState.check_price_volatility (cb : CircuitBreakerState)
    (current_price : Nat) : Option CircuitBreakerSeverity :=
  let v := volatility1h cb current_price
  if cb.price_volatility_threshold_bps < v then
    if cb.price_volatility_threshold_bps * 3 < v then some .Critical
    else if cb.price_volatility_threshold_bps * 2 < v then some .High
    else some .Medium
  else none

/-- `CircuitBreakerState::check_volume_spike`. -/
def CircuitBreakerState.check_volume_spike (cb : CircuitBreakerState)
    (current_volume : Nat) : Option CircuitBreakerSeverity :=
  if cb.volume_1h_ago = 0 then none
  else
    let spike := current_volume / cb.volume_1h_ago
    if cb.volume_spike_multiplier < spike then
      if cb.volume_spike_multiplier * 5 < spike then some .Critical
      else if cb.volume_spike_multiplier * 2 < spike then some .High
      else some .Medium
    else none

/-- The 24-hour supply-change magnitude computed by `check_supply_change`. -/
def supplyChangeBps (cb : CircuitBreakerState) (current_supply : Nat) : Nat :=
  (if cb.supply_24h_ago < current_supply then current_supply - cb.supply_24h_ago
   else cb.supply_24h_ago - current_supply) * 10000 / cb.supply_24h_ago

/-- `CircuitBreakerState::check_supply_change`. -/
def CircuitBreakerState.check_supply_change (cb : CircuitBreakerState)
    (current_supply : Nat) : Option CircuitBreakerSeverity :=
  if cb.supply_24h_ago = 0 then none
  else
    let change_bps := supplyChangeBps cb current_supply
    if cb.supply_change_threshold_bps < change_bps then
      if cb.supply_change_threshold_bps * 3 < change_bps then some .Critical
      else if cb.supply_change_threshold_bps * 2 < change_bps then some .High
      else some .Medium
    else none

/-- The liquidity-drain magnitude computed by `check_liquidity_drain`. -/
def drainBps (cb : CircuitBreakerState) (current_liquidity : Nat) : Nat :=
  (cb.liquidity_1h_ago - current_liquidity) * 10000 / cb.liquidity_1h_ago

/-- `CircuitBreakerState::check_liquidity_drain`. -/
def CircuitBreakerState.check_liquidity_drain (cb : CircuitBreakerState)
    (current_liquidity : Nat) : Option CircuitBreakerSeverity :=
  if cb.liquidity_1h_ago = 0 then none
  else if current_liquidity < cb.liquidity_1h_ago then
    let drain_bps := drainBps cb current_liquidity
    if cb.liquidity_drain_threshold_bps < drain_bps then
      if cb.liquidity_drain_threshold_bps * 3 < drain_bps then some .Critical
      else if cb.liquidity_drain_threshold_bps * 2 < drain_bps then some .High
      else some .Medium
    else none
  else none

/-- The cross-source divergence magnitude computed by
`check_oracle_divergence` (well-defined for a nonempty price list with a
positive minimum, as in the source). -/
def divergenceBps (prices : List Nat) : Nat :=
  let maxP := prices.foldl max 0
  let minP := prices.foldl min (prices.headD 0)
  (maxP - minP) * 10000 / minP

/-- `check_oracle_divergence` from
`twist-token/src/instructions/circuit_breaker.rs`. -/
def check_oracle_divergence (prices : List Nat) (threshold_bps : Nat) :
    Option CircuitBreakerSeverity :=
  if prices.length < 2 then none
  else
    let d := divergenceBps prices
    if threshold_bps < d then
      if threshold_bps * 3 < d then some .Critical
      else if threshold_bps * 2 < d then some .High
      else some .Medium
    else none

/-- Classifier shape stated by the spec: above `1×` the base threshold is
`Medium`, above `2×` is `High`, above `3×` is `Critical`. -/
def specSeverityMap (magnitude threshold : Nat) : Option CircuitBreakerSeverity :=
  if threshold < magnitude then
    if threshold * 3 < magnitude then some .Critical
    else if threshold * 2 < magnitude then some .High
    else some .Medium
  else none

/-- The classifier shape the volume-spike signal actually uses: above `1×`
is `Medium`, above `2×` is `High`, above `5×` is `Critical`. -/
def volumeSeverityMap (magnitude threshold : Nat) : Option CircuitBreakerSeverity :=
  if threshold < magnitude then
    if threshold * 5 < magnitude then some .Critical
    else if threshold * 2 < magnitude then some .High
    else some .Medium
  else none

/-- Modelled from the spec (for comparison with the code): the
share-method pending amount `floor(shares * reward_per_share / PRECISION)
− reward_debt`, floored at zero (`Nat` subtraction). -/
def specPendingShareMethod (pool : BondPool) (position : BondPosition) : Nat :=
  position.shares * pool.reward_per_share / PRECISION - position.reward_debt

/-- Modelled from the spec (for comparison with the code): the
integral-method pending amount
`floor((yield_integral − claimed_cursor) * amount_staked / 2^64)`. -/
def specPendingIntegralMethod (pool : BondPool) (position : BondPosition) : Nat :=
  (pool.yield_integral - position.claimed_cursor) * position.amount_staked / 2 ^ 64

/-! ### Concrete fixtures used by counterexamples and witnesses -/

/-- A freshly initialised, active pool with no stake limits and no lock. -/
def basePool : BondPool :=
  { min_stake_amount := 0
    max_stake_amount := 0
    lock_duration := 0
    total_staked := 0
    total_shares := 0
    total_yield_accumulated := 0
    total_yield_burned := 0
    total_yield_distributed := 0
    reward_per_share := 0
    yield_integral := 0
    active := true
    finalized := false
    paused := false
    staker_count := 0 }

/-- A fresh factory + pool system with the default 90/10 yield split. -/
def baseSys : Sys :=
  { factory_paused := false
    burn_percentage_bps := 9000
    current_tvl := 0
    total_value_locked := 0
    total_burned_from_yield := 0
    total_distributed_to_stakers := 0
    pool := basePool
    positions := [] }

/-- Pre state of the spec's worked example for share issuance: a pool
holding `total_staked = 500, total_shares = 500`. -/
def c2Sys : Sys :=
  { baseSys with pool := { basePool with total_staked := 500, total_shares := 500 } }

/-- Post state of the worked example: staker 2 deposited 500. -/
def c2After : Sys :=
  { baseSys with
    current_tvl := 500
    total_value_locked := 500
    pool := { basePool with total_staked := 1000, total_shares := 1000, staker_count := 1 }
    positions := [{ owner := 2
                    amount_staked := 500
                    shares := 500
                    stake_timestamp := 0
                    unlock_timestamp := 0
                    reward_debt := 0
                    rewards_claimed := 0
                    last_claim_timestamp := 0
                    claimed_cursor := 0
                    position_number := 0
                    auto_compound := false
                    tier := 0 }] }

/-- Pool whose `reward_per_share` makes `shares * reward_per_share`
overflow `u128` for a maximal `u64` share count. -/
def c5Pool : BondPool :=
  { basePool with
    reward_per_share := 2 ^ 65
    total_staked := U64 - 1
    total_shares := U64 - 1 }

/-- Position holding `u64::MAX` shares of `c5Pool`. -/
def c5Pos : BondPosition :=
  { owner := 1
    amount_staked := 0
    shares := U64 - 1
    stake_timestamp := 0
    unlock_timestamp := 0
    reward_debt := 0
    rewards_claimed := 0
    last_claim_timestamp := 0
    claimed_cursor := 0
    position_number := 0
    auto_compound := false
    tier := 0 }

/-- System state for the C5 counterexample. -/
def c5Sys : Sys := { baseSys with pool := c5Pool, positions := [c5Pos] }

/-- Pre state for the C3 and C4 witnesses: reward-per-share of one token
per share and a nonzero yield integral. -/
def c3Pos : BondPosition :=
  { owner := 1
    amount_staked := 5
    shares := 10
    stake_timestamp := 0
    unlock_timestamp := 0
    reward_debt := 0
    rewards_claimed := 0
    last_claim_timestamp := 0
    claimed_cursor := 0
    position_number := 0
    auto_compound := false
    tier := 0 }

/-- System state for the C3 witness. -/
def c3Sys : Sys :=
  { baseSys with
    pool := { basePool with
      reward_per_share := PRECISION
      yield_integral := 2 ^ 64
      total_staked := 10
      total_shares := 10 }
    positions := [c3Pos] }

/-- Post state of the paying claim on `c3Sys`. -/
def c3After : Sys :=
  { c3Sys with
    positions := [{ c3Pos with
      reward_debt := 10
      claimed_cursor := 2 ^ 64
      rewards_claimed := 10 }] }

/-- Pool with stakers but paused, for the C6 counterexample. -/
def c6Sys : Sys :=
  { baseSys with pool := { basePool with total_shares := 1, total_staked := 1, paused := true } }

/-- Pool with ten stakes for the C6 witness. -/
def c6WSys : Sys :=
  { baseSys with pool := { basePool with total_shares := 10, total_staked := 10 } }

/-- Stake entry used by the C7 counterexample: a 30-day lock (5% tier). -/
def c7Entry : StakeEntry :=
  { amount := 1000000000
    start_timestamp := 0
    lock_period := 2592000
    apy_bps := 0
    last_claim_timestamp := 0
    total_earned := 0
    withdrawn := false }

/-- A proportional-only PID controller targeting price 200, for the C8
witness. -/
def pidW : PIDControllerState :=
  { kp := 10000
    ki := 0
    kd := 0
    integral := 0
    previous_error := 0
    last_update_timestamp := 0
    integral_min := -1000000
    integral_max := 1000000
    output_min := -10000
    output_max := 10000
    target_price := 200
    price_tolerance_bps := 0
    max_mint_rate_bps := 500
    max_burn_rate_bps := 500
    last_adjustment_timestamp := 0
    adjustment_cooldown := 0
    total_minted := 0
    total_burned := 0
    adjustment_count := 0
    last_adjustment_amount := 0
    last_adjustment_type := .NoAdjustment }

/-- Post state of the C8 witness adjustment. -/
def pidW1 : PIDControllerState :=
  { pidW with
    integral := 100
    previous_error := 100
    last_update_timestamp := 1
    last_adjustment_timestamp := 1
    last_adjustment_amount := 10000
    last_adjustment_type := .Burn
    adjustment_count := 1
    total_burned := 10000 }

/-- Circuit-breaker state for the C9 counterexample and witness. -/
def c9Cb : CircuitBreakerState :=
  { price_volatility_threshold_bps := 100
    volume_spike_multiplier := 10
    supply_change_threshold_bps := 100
    oracle_divergence_threshold_bps := 100
    liquidity_drain_threshold_bps := 100
    price_1h_ago := 10000
    price_24h_ago := 0
    volume_1h_ago := 1
    volume_24h_ago := 0
    supply_24h_ago := 1000
    liquidity_1h_ago := 1000 }

/-! ### Helper lemmas on list lookup -/

instance {ε α : Type} [DecidableEq ε] [DecidableEq α] : DecidableEq (Except ε α) := fun a b =>
  match a, b with
  | .ok x, .ok y =>
    if h : x = y then .isTrue (by rw [h]) else .isFalse (by intro hc; cases hc; exact h rfl)
  | .error x, .error y =>
    if h : x = y then .isTrue (by rw [h]) else .isFalse (by intro hc; cases hc; exact h rfl)
  | .ok _, .error _ => .isFalse (by intro hc; cases hc)
  | .error _, .ok _ => .isFalse (by intro hc; cases hc)

theorem find?_append_of_none {α} (l1 l2 : List α) (p : α → Bool)
    (h : l1.find? p = none) : (l1 ++ l2).find? p = l2.find? p := by
  induction l1 with
  | nil => rfl
  | cons a l ih =>
    rw [List.find?_cons] at h
    cases hpa : p a with
    | true => rw [hpa] at h; exact absurd h (by simp)
    | false =>
      rw [hpa] at h
      rw [List.cons_append, List.find?_cons, hpa]
      exact ih h

theorem find?_map_guard (l : List BondPosition) (c : Nat)
    (g : BondPosition → BondPosition) (hg : ∀ p, (g p).owner = p.owner) :
    (l.map (fun p => if p.owner == c then g p else p)).find? (fun p => p.owner == c) =
      (l.find? (fun p => p.owner == c)).map g := by
  induction l with
  | nil => rfl
  | cons a l ih =>
    by_cases hc : a.owner = c
    · simp [List.find?_cons, hc, hg, -List.find?_map]
    · simpa [List.find?_cons, hc, hg, -List.find?_map] using ih

/-- Successful `stake_in_pool` structure: the post state appends one fresh
position holding the deposited principal and the issued shares, and grows
the pool totals by exactly those quantities. -/
theorem stake_in_pool_ok (s : Sys) (staker amount : Nat) (now : Int) (s' : Sys)
    (h : stake_in_pool s staker amount now = .ok s') :
    findPosition s staker = none ∧
    ∃ shares reward_debt,
      sharesForDeposit s.pool amount = some shares ∧
      rewardDebtOf s.pool shares = some reward_debt ∧
      s'.positions = s.positions ++
        [{ owner := staker
           amount_staked := amount
           shares := shares
           stake_timestamp := now
           unlock_timestamp := now + s.pool.lock_duration
           reward_debt := reward_debt
           rewards_claimed := 0
           last_claim_timestamp := now
           claimed_cursor := s.pool.yield_integral
           position_number := s.pool.staker_count
           auto_compound := false
           tier := calculate_tier amount }] ∧
      s'.pool.total_staked = s.pool.total_staked + amount ∧
      s'.pool.total_shares = s.pool.total_shares + shares := by
  unfold stake_in_pool at h
  split at h
  · exact absurd h (by simp)
  · rename_i hfind
    constructor
    · cases hf : findPosition s staker with
      | none => rfl
      | some p => rw [hf] at hfind; simp at hfind
    split at h
    · exact absurd h (by simp)
    split at h
    · exact absurd h (by simp)
    split at h
    · exact absurd h (by simp)
    split at h
    · exact absurd h (by simp)
    split at h
    · rename_i s'' hcore
      cases h
      unfold stakeCore at hcore
      simp only [Option.bind_eq_bind, Option.bind_eq_some] at hcore
      obtain ⟨shares, hshares, hcore⟩ := hcore
      obtain ⟨reward_debt, hdebt, hcore⟩ := hcore
      obtain ⟨ts, hts, hcore⟩ := hcore
      obtain ⟨tsh, htsh, hcore⟩ := hcore
      obtain ⟨tvl, htvl, hcore⟩ := hcore
      obtain ⟨tvl2, htvl2, hcore⟩ := hcore
      cases hcore
      refine ⟨shares, reward_debt, hshares, hdebt, rfl, ?_, ?_⟩
      · unfold checkedAdd64 at hts
        split at hts
        · cases hts; rfl
        · exact absurd hts (by simp)
      · unfold checkedAdd64 at htsh
        split at htsh
        · cases htsh; rfl
        · exact absurd htsh (by simp)
    · exact absurd h (by simp)

/-- A successful deposit makes the staker's position resolvable, holding
the deposited principal and the shares issued by `sharesForDeposit`. -/
theorem stake_position_lookup (s : Sys) (staker amount : Nat) (now : Int) (s' : Sys)
    (h : stake_in_pool s staker amount now = .ok s') :
    ∃ pos, findPosition s' staker = some pos ∧ pos.owner = staker ∧
      pos.amount_staked = amount ∧ sharesForDeposit s.pool amount = some pos.shares := by
  obtain ⟨hnone, shares, reward_debt, hshares, -, hpos, -, -⟩ :=
    stake_in_pool_ok s staker amount now s' h
  have hfind : findPosition s' staker =
      some { owner := staker
             amount_staked := amount
             shares := shares
             stake_timestamp := now
             unlock_timestamp := now + s.pool.lock_duration
             reward_debt := reward_debt
             rewards_claimed := 0
             last_claim_timestamp := now
             claimed_cursor := s.pool.yield_integral
             position_number := s.pool.staker_count
             auto_compound := false
             tier := calculate_tier amount } := by
    unfold findPosition at hnone ⊢
    rw [hpos, find?_append_of_none _ _ _ hnone]
    simp [List.find?]
  exact ⟨_, hfind, rfl, rfl, hshares⟩

/-- C1: evaluation of the code at the failing input.  Starting from an
empty pool, staker 1 deposits 100 (getting 100 shares) and then withdraws
40 of the 100 shares after unlock.  The pool is left with
`total_staked = 60` and `total_shares = 60`, yet no open position remains
(the `close = withdrawer` constraint closes the position account
unconditionally and the handler never decrements the position), so both
conservation sums are 0 ≠ 60. -/
theorem conservation_fails_on_partial_withdraw :
    ((stake_in_pool baseSys 1 100 0).bind (fun s1 => withdraw_stake s1 1 40 0)).toOption.map
        (fun s => (s.pool.total_staked, s.pool.total_shares,
          sumPrincipal s.positions, sumShares s.positions)) =
      some (60, 60, 0, 0) := by
  decide

/-- C10 counterexample: a second deposit by the same staker into the same
pool does not accrue into the existing position — it fails, because the
position account is created with the Anchor `init` constraint, which
rejects an already-initialised account. -/
theorem second_deposit_rejected :
    (stake_in_pool baseSys 1 100 0).bind (fun s1 => stake_in_pool s1 1 50 0) =
      .error .AccountAlreadyInitialized := by
  decide

/-- C10 (amended): a position is created on a staker's first deposit into
a pool; a subsequent deposit by the same staker into the same pool is
rejected with an account-already-initialised error instead of mutating
the existing position. -/
theorem deposit_creates_once_then_rejects (s : Sys) (staker amount : Nat) (now : Int) :
    (∀ s', findPosition s staker = none → stake_in_pool s staker amount now = .ok s' →
      ∃ pos, findPosition s' staker = some pos ∧ pos.owner = staker ∧
        pos.amount_staked = amount) ∧
    (findPosition s staker ≠ none →
      stake_in_pool s staker amount now = .error .AccountAlreadyInitialized) := by
  constructor
  · intro s' hnone hok
    obtain ⟨pos, hfind, hown, hamt, -⟩ := stake_position_lookup s staker amount now s' hok
    exact ⟨pos, hfind, hown, hamt⟩
  · intro hsome
    unfold stake_in_pool
    cases hf : findPosition s staker with
    | none => exact absurd hf hsome
    | some p => simp [hf]

/-- C10 witness for the amended theorem: the first deposit into the empty
fixture system creates a position owned by staker 1 holding principal 100. -/
theorem deposit_creates_once_witness :
    ∃ pos, findPosition
        { baseSys with
          current_tvl := 100
          total_value_locked := 100
          pool := { basePool with total_staked := 100, total_shares := 100, staker_count := 1 }
          positions := [{ owner := 1
                          amount_staked := 100
                          shares := 100
                          stake_timestamp := 0
                          unlock_timestamp := 0
                          reward_debt := 0
                          rewards_claimed := 0
                          last_claim_timestamp := 0
                          claimed_cursor := 0
                          position_number := 0
                          auto_compound := false
                          tier := 0 }] } 1 = some pos ∧
      pos.owner = 1 ∧ pos.amount_staked = 100 :=
  (deposit_creates_once_then_rejects baseSys 1 100 0).1 _ (by decide) (by decide)

/-- C2: share issuance on deposit.  When the pool's `total_shares` is zero
the depositor receives shares equal to the deposited amount (1:1
bootstrap); otherwise the depositor receives
`floor(amount * total_shares / total_staked)` computed with the
pre-deposit pool totals (the hypothesis bounds the quotient below `2^64`,
where the `as u64` cast is the identity). -/
theorem deposit_share_issuance (s : Sys) (staker amount : Nat) (now : Int) (s' : Sys)
    (h : stake_in_pool s staker amount now = .ok s') :
    ∃ pos, findPosition s' staker = some pos ∧
      (s.pool.total_shares = 0 → pos.shares = amount) ∧
      (s.pool.total_shares ≠ 0 →
        amount * s.pool.total_shares / s.pool.total_staked < U64 →
        pos.shares = amount * s.pool.total_shares / s.pool.total_staked) := by
  obtain ⟨pos, hfind, -, -, hshares⟩ := stake_position_lookup s staker amount now s' h
  refine ⟨pos, hfind, ?_, ?_⟩
  · intro hz
    unfold sharesForDeposit at hshares
    rw [if_pos hz] at hshares
    exact (Option.some_inj.mp hshares).symm
  · intro hnz hemb
    unfold sharesForDeposit at hshares
    rw [if_neg hnz] at hshares
    simp only [Option.bind_eq_bind, Option.bind_eq_some] at hshares
    obtain ⟨prod, hprod, q, hq, hval⟩ := hshares
    unfold checkedMul128 at hprod
    split at hprod
    · cases hprod
      unfold checkedDiv at hq
      split at hq
      · exact absurd hq (by simp)
      · cases hq
        have := Option.some_inj.mp hval
        rw [← this, Nat.mod_eq_of_lt hemb]
    · exact absurd hprod (by simp)

/-- C2 witness: the spec's worked example.  Staker 2 deposits 500 into a
pool with `total_staked = 500, total_shares = 500` and receives exactly
`500 * 500 / 500 = 500` shares. -/
theorem deposit_share_issuance_witness :
    ∃ pos, findPosition c2After 2 = some pos ∧ pos.shares = 500 := by
  obtain ⟨pos, h1, -, h3⟩ := deposit_share_issuance c2Sys 2 500 0 c2After (by decide)
  exact ⟨pos, h1, h3 (by decide) (by decide)⟩

/-! ### C5 fixtures: a state whose share-method multiplication overflows -/

/-- C5 counterexample: the claim operation does not fail when the
share-method multiplication `shares * reward_per_share` overflows `u128`
— `BondPool::calculate_pending_rewards` substitutes 0 via `unwrap_or(0)`
and the claim succeeds, paying the substituted value. -/
theorem claim_overflow_pays_zero_cex :
    U128 ≤ c5Pos.shares * c5Sys.pool.reward_per_share ∧
    claim_rewards c5Sys 1 0 = .ok (c5Sys, 0) := by
  constructor
  · decide
  · decide

/-- C5 (amended): the `safe_*` helpers and the handlers' checked
arithmetic fail the whole operation on overflow, but
`BondPool::calculate_pending_rewards` silently substitutes 0 when
`shares * reward_per_share` overflows `u128` instead of failing. -/
theorem checked_math_overflow_behavior :
    (∀ a b : Nat, (U64 ≤ a * b → safe_mul a b = .error .MathOverflow) ∧
      (a * b < U64 → safe_mul a b = .ok (a * b))) ∧
    (∀ a b : Nat, (U64 ≤ a + b → safe_add a b = .error .MathOverflow) ∧
      (a + b < U64 → safe_add a b = .ok (a + b))) ∧
    (∀ a b : Nat, (a < b → safe_sub a b = .error .MathOverflow) ∧
      (b ≤ a → safe_sub a b = .ok (a - b))) ∧
    (∀ a : Nat, safe_div a 0 = .error .MathOverflow) ∧
    (∀ (pool : BondPool) (shares reward_debt : Nat),
      U128 ≤ shares * pool.reward_per_share →
      pool.calculate_pending_rewards shares reward_debt = 0) := by
  refine ⟨?_, ?_, ?_, ?_, ?_⟩
  · intro a b
    constructor
    · intro hle; unfold safe_mul; rw [if_neg (by omega)]
    · intro hlt; unfold safe_mul; rw [if_pos hlt]
  · intro a b
    constructor
    · intro hle; unfold safe_add; rw [if_neg (by omega)]
    · intro hlt; unfold safe_add; rw [if_pos hlt]
  · intro a b
    constructor
    · intro hlt; unfold safe_sub; rw [if_neg (by omega)]
    · intro hle; unfold safe_sub; rw [if_pos hle]
  · intro a; rfl
  · intro pool shares reward_debt hof
    have h1 : checkedMul128 shares pool.reward_per_share = none := by
      unfold checkedMul128; rw [if_neg (by omega)]
    unfold BondPool.calculate_pending_rewards
    rw [h1]
    simp only [Option.getD_none, Option.getD_some]
    have h2 : checkedDiv 0 PRECISION = some 0 := by
      unfold checkedDiv PRECISION
      rw [if_neg (by omega), Nat.zero_div]
    rw [h2]
    simp only [Option.getD_some]
    unfold checkedSub
    split
    · rename_i hle
      have : reward_debt = 0 := Nat.le_zero.mp hle
      simp [this]
    · simp

/-- C5 witness for the amended theorem, at concrete inputs. -/
theorem checked_math_overflow_witness :
    safe_mul 4294967296 4294967296 = .error .MathOverflow ∧
    safe_add 1 2 = .ok 3 ∧
    safe_sub 1 2 = .error .MathOverflow ∧
    safe_div 5 0 = .error .MathOverflow ∧
    c5Pool.calculate_pending_rewards c5Pos.shares 0 = 0 :=
  ⟨(checked_math_overflow_behavior.1 4294967296 4294967296).1 (by decide),
   (checked_math_overflow_behavior.2.1 1 2).2 (by decide),
   (checked_math_overflow_behavior.2.2.1 1 2).1 (by decide),
   checked_math_overflow_behavior.2.2.2.1 5,
   checked_math_overflow_behavior.2.2.2.2 c5Pool c5Pos.shares 0 (by decide)⟩

/-- C3: reconciliation at claim.  Under the stated in-range conditions
(no `u128` overflow, a cursor not ahead of the integral, and both method
values below `2^64` so the `as u64` casts are the identity), the amount
paid out by a successful `claim_rewards` equals
`max(pendingShareMethod, pendingIntegralMethod)`. -/
theorem claim_pays_max_of_methods (s : Sys) (claimant : Nat) (now : Int)
    (position : BondPosition) (s' : Sys) (paid : Nat)
    (hpos : findPosition s claimant = some position)
    (hcur : position.claimed_cursor ≤ s.pool.yield_integral)
    (hm1 : (s.pool.yield_integral - position.claimed_cursor) * position.amount_staked < U128)
    (hi : specPendingIntegralMethod s.pool position < U64)
    (hm2 : position.shares * s.pool.reward_per_share < U128)
    (hsh : specPendingShareMethod s.pool position < U64)
    (hok : claim_rewards s claimant now = .ok (s', paid)) :
    paid = max (specPendingShareMethod s.pool position)
      (specPendingIntegralMethod s.pool position) := by
  have hint : calculate_pending_rewards_integral position s.pool =
      some (specPendingIntegralMethod s.pool position) := by
    unfold calculate_pending_rewards_integral checkedSub checkedMul128 checkedDiv
    rw [if_pos hcur]
    simp only [Option.bind_eq_bind, Option.some_bind]
    rw [if_pos hm1]
    simp only [Option.some_bind]
    rw [if_neg (by decide : ¬((2:Nat) ^ 64 = 0))]
    simp only [Option.some_bind]
    unfold specPendingIntegralMethod at hi ⊢
    rw [Nat.mod_eq_of_lt hi]
  have hshv : s.pool.calculate_pending_rewards position.shares position.reward_debt =
      specPendingShareMethod s.pool position := by
    unfold BondPool.calculate_pending_rewards checkedMul128 checkedDiv checkedSub
    rw [if_pos hm2]
    simp only [Option.getD_some]
    rw [if_neg (by decide : ¬(PRECISION = 0))]
    simp only [Option.getD_some]
    unfold specPendingShareMethod at hsh ⊢
    split
    · simp only [Option.getD_some]
      rw [Nat.mod_eq_of_lt hsh]
    · rename_i hgt
      simp only [Option.getD_none]
      have : position.shares * s.pool.reward_per_share / PRECISION -
          position.reward_debt = 0 := by omega
      rw [this, Nat.zero_mod]
  unfold claim_rewards at hok
  split at hok
  · exact absurd hok (by simp)
  · rename_i pos heq
    rw [hpos] at heq
    cases heq
    split at hok
    · rename_i heq2
      rw [hint] at heq2
      exact absurd heq2 (by simp)
    · rename_i pi heq2
      rw [hint] at heq2
      cases heq2
      rw [hshv] at hok
      rw [Nat.max_comm]
      split at hok
      · rename_i hz
        cases hok
        exact hz.symm
      · split at hok
        · cases hok; rfl
        · exact absurd hok (by simp)

/-- C3 witness: on `c3Sys` the share method yields 10, the integral method
yields 5, and the claim pays `max(10, 5) = 10`. -/
theorem claim_pays_max_witness :
    (10 : Nat) = max (specPendingShareMethod c3Sys.pool c3Pos)
      (specPendingIntegralMethod c3Sys.pool c3Pos) :=
  claim_pays_max_of_methods c3Sys 1 0 c3Pos c3After 10 (by decide) (by decide) (by decide)
    (by decide) (by decide) (by decide) (by decide)

/-- C4: no double payment.  If `claim_rewards` succeeds, then calling it
again on the resulting state with no intervening yield distribution,
deposit or withdrawal succeeds and pays 0, because a paying claim
advances both `reward_debt` and `claimed_cursor` to the then-current
accumulator values. -/
theorem claim_twice_pays_zero (s : Sys) (claimant : Nat) (t1 t2 : Int) (s' : Sys) (p1 : Nat)
    (h : claim_rewards s claimant t1 = .ok (s', p1)) :
    claim_rewards s' claimant t2 = .ok (s', 0) := by
  unfold claim_rewards at h
  split at h
  · exact absurd h (by simp)
  · rename_i position heq
    split at h
    · exact absurd h (by simp)
    · rename_i pi heq2
      split at h
      · rename_i hz
        cases h
        simp [claim_rewards, heq, heq2, hz]
      · split at h
        · rename_i s2 hup
          cases h
          unfold claimUpdate at hup
          rw [heq] at hup
          simp only [Option.bind_eq_bind, Option.some_bind, Option.bind_eq_some] at hup
          obtain ⟨prod, hprod, rd', hrd, rc', hrc, hs2⟩ := hup
          have hlt : position.shares * s.pool.reward_per_share < U128 := by
            by_contra hc
            unfold checkedMul128 at hprod
            rw [if_neg hc] at hprod
            exact absurd hprod (by simp)
          have hprodv : prod = position.shares * s.pool.reward_per_share := by
            unfold checkedMul128 at hprod
            rw [if_pos hlt] at hprod
            exact (Option.some_inj.mp hprod).symm
          have hrdv : rd' = prod / PRECISION := by
            unfold checkedDiv at hrd
            rw [if_neg (by decide : ¬(PRECISION = 0))] at hrd
            exact (Option.some_inj.mp hrd).symm
          subst hprodv hrdv
          cases hs2
          have hfind2 : findPosition
              { s with positions := s.positions.map (fun p =>
                  if p.owner == claimant then
                    { p with
                      reward_debt := position.shares * s.pool.reward_per_share / PRECISION
                      claimed_cursor := s.pool.yield_integral
                      rewards_claimed := rc'
                      last_claim_timestamp := t1 }
                  else p) } claimant =
              some { position with
                reward_debt := position.shares * s.pool.reward_per_share / PRECISION
                claimed_cursor := s.pool.yield_integral
                rewards_claimed := rc'
                last_claim_timestamp := t1 } := by
            unfold findPosition
            have hmg := find?_map_guard s.positions claimant
              (fun p =>
                { p with
                  reward_debt := position.shares * s.pool.reward_per_share / PRECISION
                  claimed_cursor := s.pool.yield_integral
                  rewards_claimed := rc'
                  last_claim_timestamp := t1 })
              (fun p => rfl)
            rw [show s.positions.find? (fun p => p.owner == claimant) = some position
              from heq] at hmg
            simpa using hmg
          have hint2 : calculate_pending_rewards_integral
              { position with
                reward_debt := position.shares * s.pool.reward_per_share / PRECISION
                claimed_cursor := s.pool.yield_integral
                rewards_claimed := rc'
                last_claim_timestamp := t1 } s.pool = some 0 := by
            unfold calculate_pending_rewards_integral checkedSub checkedMul128 checkedDiv
            simp only
            rw [if_pos (Nat.le_refl _), Nat.sub_self]
            simp only [Option.bind_eq_bind, Option.some_bind, Nat.zero_mul]
            rw [if_pos (by decide : (0:Nat) < U128)]
            simp only [Option.some_bind]
            rw [if_neg (by decide : ¬((2:Nat) ^ 64 = 0))]
            simp only [Option.some_bind, Nat.zero_div, Nat.zero_mod]
          have hsh2 : s.pool.calculate_pending_rewards position.shares
              (position.shares * s.pool.reward_per_share / PRECISION) = 0 := by
            unfold BondPool.calculate_pending_rewards checkedMul128 checkedDiv checkedSub
            rw [if_pos hlt]
            simp only [Option.getD_some]
            rw [if_neg (by decide : ¬(PRECISION = 0))]
            simp only [Option.getD_some]
            rw [if_pos (Nat.le_refl _), Nat.sub_self]
            simp only [Option.getD_some, Nat.zero_mod]
          unfold claim_rewards
          rw [hfind2]
          simp [hint2, hsh2]
        · exact absurd h (by simp)

/-- C4 witness: on the concrete state `c3Sys` the first claim pays 10,
producing `c3After`; the immediately following claim succeeds and pays 0. -/
theorem claim_twice_witness :
    claim_rewards c3After 1 0 = .ok (c3After, 0) :=
  claim_twice_pays_zero c3Sys 1 0 0 c3After 10 (by decide)

/-- C6 counterexample: a pool with `total_shares > 0` does not always
accept yield — a paused pool rejects `distribute_yield` with an error,
so "when total_shares > 0 it succeeds" is false as stated. -/
theorem distribute_yield_paused_cex :
    0 < c6Sys.pool.total_shares ∧ distribute_yield c6Sys 100 true = .error .PoolPaused := by
  decide

/-- C6 (amended): with the VAU signer present, `distribute_yield` on a
pool with zero `total_shares` fails with `NoStakers` (the `Except.error`
result models the hosting chain's atomic abort, so no state is written);
on an unpaused pool with stakers, nonzero `total_staked`, an in-range
burn split, and no `u128` accumulator overflow, it succeeds and
increments `reward_per_share` by exactly
`floor(stakerPortion * PRECISION / totalShares)`. -/
theorem distribute_yield_amended (s : Sys) (burn_amount : Nat)
    (hb : burn_amount < U64) (hbps : s.burn_percentage_bps ≤ 10000) :
    (s.pool.total_shares = 0 → distribute_yield s burn_amount true = .error .NoStakers) ∧
    (s.pool.total_shares ≠ 0 → s.pool.paused = false → s.pool.total_staked ≠ 0 →
      s.pool.reward_per_share +
        (burn_amount - burn_amount * s.burn_percentage_bps / 10000) * PRECISION /
          s.pool.total_shares < U128 →
      s.pool.yield_integral +
        (burn_amount - burn_amount * s.burn_percentage_bps / 10000) * 2 ^ 64 /
          s.pool.total_staked < U128 →
      s.pool.total_yield_accumulated + burn_amount < U128 →
      s.pool.total_yield_burned + burn_amount * s.burn_percentage_bps / 10000 < U128 →
      s.pool.total_yield_distributed +
        (burn_amount - burn_amount * s.burn_percentage_bps / 10000) < U128 →
      s.total_burned_from_yield + burn_amount * s.burn_percentage_bps / 10000 < U128 →
      s.total_distributed_to_stakers +
        (burn_amount - burn_amount * s.burn_percentage_bps / 10000) < U128 →
      ∃ s', distribute_yield s burn_amount true = .ok s' ∧
        s'.pool.reward_per_share = s.pool.reward_per_share +
          (burn_amount - burn_amount * s.burn_percentage_bps / 10000) * PRECISION /
            s.pool.total_shares) := by
  constructor
  · intro hz
    unfold distribute_yield
    simp [hz]
  · intro hnz hpaused hT h1 h2 h3 h4 h5 h6 h7
    have hprod1 : burn_amount * s.burn_percentage_bps < U128 := by
      calc burn_amount * s.burn_percentage_bps
          ≤ burn_amount * 10000 := Nat.mul_le_mul_left _ hbps
        _ < U64 * 10000 := (Nat.mul_lt_mul_right (show 0 < 10000 by decide)).mpr hb
        _ < U128 := by decide
    have hbple : burn_amount * s.burn_percentage_bps / 10000 ≤ burn_amount := by
      calc burn_amount * s.burn_percentage_bps / 10000
          ≤ burn_amount * 10000 / 10000 := Nat.div_le_div_right (Nat.mul_le_mul_left _ hbps)
        _ = burn_amount := Nat.mul_div_cancel burn_amount (by decide)
    have hbplt : burn_amount * s.burn_percentage_bps / 10000 < U64 :=
      Nat.lt_of_le_of_lt hbple hb
    have hsple : burn_amount - burn_amount * s.burn_percentage_bps / 10000 ≤ burn_amount :=
      Nat.sub_le _ _
    have hsplt : burn_amount - burn_amount * s.burn_percentage_bps / 10000 < U64 :=
      Nat.lt_of_le_of_lt hsple hb
    have hprod2 : (burn_amount - burn_amount * s.burn_percentage_bps / 10000) * PRECISION <
        U128 := by
      calc (burn_amount - burn_amount * s.burn_percentage_bps / 10000) * PRECISION
          < U64 * PRECISION := (Nat.mul_lt_mul_right (show 0 < PRECISION by decide)).mpr hsplt
        _ < U128 := by decide
    have hprod3 : (burn_amount - burn_amount * s.burn_percentage_bps / 10000) * 2 ^ 64 <
        U128 := by
      calc (burn_amount - burn_amount * s.burn_percentage_bps / 10000) * 2 ^ 64
          < U64 * 2 ^ 64 := (Nat.mul_lt_mul_right (show 0 < 2 ^ 64 by decide)).mpr hsplt
        _ ≤ U128 := by decide
    have hcore : distributeCore s burn_amount = some
        { s with
          pool := { s.pool with
            reward_per_share := s.pool.reward_per_share +
              (burn_amount - burn_amount * s.burn_percentage_bps / 10000) * PRECISION /
                s.pool.total_shares
            yield_integral := s.pool.yield_integral +
              (burn_amount - burn_amount * s.burn_percentage_bps / 10000) * 2 ^ 64 /
                s.pool.total_staked
            total_yield_accumulated := s.pool.total_yield_accumulated + burn_amount
            total_yield_burned := s.pool.total_yield_burned +
              burn_amount * s.burn_percentage_bps / 10000
            total_yield_distributed := s.pool.total_yield_distributed +
              (burn_amount - burn_amount * s.burn_percentage_bps / 10000) }
          total_burned_from_yield := s.total_burned_from_yield +
            burn_amount * s.burn_percentage_bps / 10000
          total_distributed_to_stakers := s.total_distributed_to_stakers +
            (burn_amount - burn_amount * s.burn_percentage_bps / 10000) } := by
      unfold distributeCore
      rw [show checkedMul128 burn_amount s.burn_percentage_bps =
        some (burn_amount * s.burn_percentage_bps) from if_pos hprod1]
      simp only [Option.bind_eq_bind, Option.some_bind]
      rw [show checkedDiv (burn_amount * s.burn_percentage_bps) 10000 =
        some (burn_amount * s.burn_percentage_bps / 10000) from if_neg (by decide)]
      simp only [Option.some_bind]
      rw [Nat.mod_eq_of_lt hbplt]
      rw [show checkedSub burn_amount (burn_amount * s.burn_percentage_bps / 10000) =
        some (burn_amount - burn_amount * s.burn_percentage_bps / 10000) from if_pos hbple]
      simp only [Option.some_bind]
      rw [show checkedMul128 (burn_amount - burn_amount * s.burn_percentage_bps / 10000)
          PRECISION =
        some ((burn_amount - burn_amount * s.burn_percentage_bps / 10000) * PRECISION)
        from if_pos hprod2]
      simp only [Option.some_bind]
      rw [show checkedDiv ((burn_amount - burn_amount * s.burn_percentage_bps / 10000) *
          PRECISION) s.pool.total_shares =
        some ((burn_amount - burn_amount * s.burn_percentage_bps / 10000) * PRECISION /
          s.pool.total_shares) from if_neg hnz]
      simp only [Option.some_bind]
      rw [show checkedAdd128 s.pool.reward_per_share
          ((burn_amount - burn_amount * s.burn_percentage_bps / 10000) * PRECISION /
            s.pool.total_shares) = some _ from if_pos h1]
      simp only [Option.some_bind]
      rw [show checkedMul128 (burn_amount - burn_amount * s.burn_percentage_bps / 10000)
          (2 ^ 64) =
        some ((burn_amount - burn_amount * s.burn_percentage_bps / 10000) * 2 ^ 64)
        from if_pos hprod3]
      simp only [Option.some_bind]
      rw [show checkedDiv ((burn_amount - burn_amount * s.burn_percentage_bps / 10000) *
          2 ^ 64) s.pool.total_staked =
        some ((burn_amount - burn_amount * s.burn_percentage_bps / 10000) * 2 ^ 64 /
          s.pool.total_staked) from if_neg hT]
      simp only [Option.some_bind]
      rw [show checkedAdd128 s.pool.yield_integral
          ((burn_amount - burn_amount * s.burn_percentage_bps / 10000) * 2 ^ 64 /
            s.pool.total_staked) = some _ from if_pos h2]
      simp only [Option.some_bind]
      rw [show checkedAdd128 s.pool.total_yield_accumulated burn_amount = some _
        from if_pos h3]
      simp only [Option.some_bind]
      rw [show checkedAdd128 s.pool.total_yield_burned
          (burn_amount * s.burn_percentage_bps / 10000) = some _ from if_pos h4]
      simp only [Option.some_bind]
      rw [show checkedAdd128 s.pool.total_yield_distributed
          (burn_amount - burn_amount * s.burn_percentage_bps / 10000) = some _
        from if_pos h5]
      simp only [Option.some_bind]
      rw [show checkedAdd128 s.total_burned_from_yield
          (burn_amount * s.burn_percentage_bps / 10000) = some _ from if_pos h6]
      simp only [Option.some_bind]
      rw [show checkedAdd128 s.total_distributed_to_stakers
          (burn_amount - burn_amount * s.burn_percentage_bps / 10000) = some _
        from if_pos h7]
      simp only [Option.some_bind]
    have hrun : distribute_yield s burn_amount true = .ok
        { s with
          pool := { s.pool with
            reward_per_share := s.pool.reward_per_share +
              (burn_amount - burn_amount * s.burn_percentage_bps / 10000) * PRECISION /
                s.pool.total_shares
            yield_integral := s.pool.yield_integral +
              (burn_amount - burn_amount * s.burn_percentage_bps / 10000) * 2 ^ 64 /
                s.pool.total_staked
            total_yield_accumulated := s.pool.total_yield_accumulated + burn_amount
            total_yield_burned := s.pool.total_yield_burned +
              burn_amount * s.burn_percentage_bps / 10000
            total_yield_distributed := s.pool.total_yield_distributed +
              (burn_amount - burn_amount * s.burn_percentage_bps / 10000) }
          total_burned_from_yield := s.total_burned_from_yield +
            burn_amount * s.burn_percentage_bps / 10000
          total_distributed_to_stakers := s.total_distributed_to_stakers +
            (burn_amount - burn_amount * s.burn_percentage_bps / 10000) } := by
      unfold distribute_yield
      rw [if_neg (by decide), if_neg hnz, if_neg (by simp [hpaused]), hcore]
    exact ⟨_, hrun, rfl⟩

/-- C6 witness: the empty fixture pool rejects yield with `NoStakers`,
and distributing 1000 over `c6WSys` (90/10 split) adds
`100 * PRECISION / 10` to `reward_per_share`. -/
theorem distribute_yield_amended_witness :
    distribute_yield baseSys 5 true = .error .NoStakers ∧
    ∃ s', distribute_yield c6WSys 1000 true = .ok s' ∧
      s'.pool.reward_per_share = c6WSys.pool.reward_per_share +
        (1000 - 1000 * c6WSys.burn_percentage_bps / 10000) * PRECISION /
          c6WSys.pool.total_shares :=
  ⟨(distribute_yield_amended baseSys 5 (by decide) (by decide)).1 rfl,
   (distribute_yield_amended c6WSys 1000 (by decide) (by decide)).2 (by decide) (by decide)
     (by decide) (by decide) (by decide) (by decide) (by decide) (by decide) (by decide)
     (by decide)⟩

/-- C7 counterexample: the early-unstake penalty is not strictly
decreasing in time elapsed — at the two consecutive locked timestamps 1
and 2 the penalty is identical and nonzero, because the
`time_remaining * 10000 / lock_period` ratio is floored. -/
theorem penalty_not_strictly_decreasing_cex :
    c7Entry.is_unlocked 2 = false ∧
    c7Entry.calculate_early_unstake_penalty 1 = c7Entry.calculate_early_unstake_penalty 2 ∧
    c7Entry.calculate_early_unstake_penalty 2 = 49900000 := by
  decide

/-- C7 (amended): while locked the penalty is non-increasing (weakly
decreasing) in time elapsed, and it equals 0 at or after the unlock
timestamp.  The tier rate (5/10/15/20% by lock length) scaled by the
floored remaining-time ratio is the definition
`StakeEntry.calculate_early_unstake_penalty` itself. -/
theorem penalty_nonincreasing_amended (e : StakeEntry) (t1 t2 : Int)
    (hl : 0 < e.lock_period) (ha : e.amount < U64)
    (hs : e.start_timestamp ≤ t1) (h12 : t1 ≤ t2) :
    e.calculate_early_unstake_penalty t2 ≤ e.calculate_early_unstake_penalty t1 ∧
    ∀ t : Int, e.start_timestamp + e.lock_period ≤ t →
      e.calculate_early_unstake_penalty t = 0 := by
  constructor
  · by_cases hu2 : e.is_unlocked t2 = true
    · unfold StakeEntry.calculate_early_unstake_penalty
      rw [if_pos hu2]
      exact Nat.zero_le _
    · have hlt2 : t2 < e.start_timestamp + e.lock_period := by
        unfold StakeEntry.is_unlocked at hu2
        simp only [decide_eq_true_eq, ge_iff_le] at hu2
        omega
      have hu1 : ¬ e.is_unlocked t1 = true := by
        unfold StakeEntry.is_unlocked
        simp only [decide_eq_true_eq, ge_iff_le]
        omega
      have hpos : 0 < e.lock_period.toNat := by omega
      have htr21 : (e.start_timestamp + e.lock_period - t2).toNat ≤
          (e.start_timestamp + e.lock_period - t1).toNat := by omega
      have htr1 : (e.start_timestamp + e.lock_period - t1).toNat ≤ e.lock_period.toNat := by
        omega
      unfold StakeEntry.calculate_early_unstake_penalty
      rw [if_neg hu2, if_neg hu1]
      have hrate : (if e.lock_period ≥ 365 * 86400 then 2000
          else if e.lock_period ≥ 180 * 86400 then 1500
          else if e.lock_period ≥ 90 * 86400 then (1000 : Nat)
          else 500) ≤ 2000 := by
        split
        · exact Nat.le_refl _
        split
        · decide
        split
        · decide
        · decide
      have hbound : ∀ tr : Nat, tr ≤ e.lock_period.toNat →
          e.amount * ((if e.lock_period ≥ 365 * 86400 then 2000
              else if e.lock_period ≥ 180 * 86400 then 1500
              else if e.lock_period ≥ 90 * 86400 then (1000 : Nat)
              else 500) * (tr * 10000 / e.lock_period.toNat) / 10000) / 10000 < U64 := by
        intro tr htr
        have hsc : tr * 10000 / e.lock_period.toNat ≤ 10000 := by
          calc tr * 10000 / e.lock_period.toNat
              ≤ e.lock_period.toNat * 10000 / e.lock_period.toNat :=
                Nat.div_le_div_right (Nat.mul_le_mul htr (Nat.le_refl _))
            _ = 10000 := Nat.mul_div_cancel_left 10000 hpos
        have hrs : (if e.lock_period ≥ 365 * 86400 then 2000
            else if e.lock_period ≥ 180 * 86400 then 1500
            else if e.lock_period ≥ 90 * 86400 then (1000 : Nat)
            else 500) * (tr * 10000 / e.lock_period.toNat) / 10000 ≤ 2000 := by
          calc (if e.lock_period ≥ 365 * 86400 then 2000
              else if e.lock_period ≥ 180 * 86400 then 1500
              else if e.lock_period ≥ 90 * 86400 then (1000 : Nat)
              else 500) * (tr * 10000 / e.lock_period.toNat) / 10000
              ≤ 2000 * 10000 / 10000 := Nat.div_le_div_right (Nat.mul_le_mul hrate hsc)
            _ = 2000 := by decide
        calc e.amount * ((if e.lock_period ≥ 365 * 86400 then 2000
            else if e.lock_period ≥ 180 * 86400 then 1500
            else if e.lock_period ≥ 90 * 86400 then (1000 : Nat)
            else 500) * (tr * 10000 / e.lock_period.toNat) / 10000) / 10000
            ≤ e.amount * 10000 / 10000 :=
              Nat.div_le_div_right
                (Nat.mul_le_mul (Nat.le_refl _) (Nat.le_trans hrs (by decide)))
          _ = e.amount := Nat.mul_div_cancel e.amount (by decide)
          _ < U64 := ha
      rw [Nat.mod_eq_of_lt (hbound _ (Nat.le_trans htr21 htr1)),
        Nat.mod_eq_of_lt (hbound _ htr1)]
      exact Nat.div_le_div_right (Nat.mul_le_mul (Nat.le_refl _)
        (Nat.div_le_div_right (Nat.mul_le_mul (Nat.le_refl _)
          (Nat.div_le_div_right (Nat.mul_le_mul htr21 (Nat.le_refl _))))))
  · intro t ht
    have hu : e.is_unlocked t = true := by
      unfold StakeEntry.is_unlocked
      simp only [decide_eq_true_eq, ge_iff_le]
      exact ht
    unfold StakeEntry.calculate_early_unstake_penalty
    rw [if_pos hu]

/-- C7 witness for the amended theorem: on the 30-day entry, the penalty
one second later is no larger, and at the unlock instant it is 0. -/
theorem penalty_nonincreasing_witness :
    c7Entry.calculate_early_unstake_penalty 2 ≤ c7Entry.calculate_early_unstake_penalty 1 ∧
    c7Entry.calculate_early_unstake_penalty 2592000 = 0 :=
  ⟨(penalty_nonincreasing_amended c7Entry 1 2 (by decide) (by decide) (by decide)
      (by decide)).1,
   (penalty_nonincreasing_amended c7Entry 1 2 (by decide) (by decide) (by decide)
      (by decide)).2 2592000 (by decide)⟩

/-- The supply adjustment is bounded by the rate cap regardless of the
unclamped output `x`. -/
theorem pid_amount_le (supply rate : Nat) (x : Int) :
    (supply * (clampInt x (-(rate : Int)) (rate : Int)).natAbs / 10000) % U64 ≤
      supply * rate / 10000 := by
  have hle : clampInt x (-(rate : Int)) (rate : Int) ≤ (rate : Int) := by
    unfold clampInt
    exact min_le_left _ _
  have hge : -(rate : Int) ≤ clampInt x (-(rate : Int)) (rate : Int) := by
    unfold clampInt
    exact le_min (by omega) (le_max_left _ _)
  have habs : (clampInt x (-(rate : Int)) (rate : Int)).natAbs ≤ rate := by omega
  calc supply * (clampInt x (-(rate : Int)) (rate : Int)).natAbs / 10000 % U64
      ≤ supply * (clampInt x (-(rate : Int)) (rate : Int)).natAbs / 10000 := Nat.mod_le _ _
    _ ≤ supply * rate / 10000 := Nat.div_le_div_right (Nat.mul_le_mul (Nat.le_refl _) habs)

/-- C8: PID cooldown and boundedness.  A call made before the cooldown
has elapsed since the last adjustment is rejected with an error; a
successful call produces an amount of at most
`maxBurnRateBps` (for a burn) or `maxMintRateBps` (for a mint) of the
current supply, and any call that actually adjusts stamps the state with
the call's timestamp, so no two adjustments can occur within the
cooldown. -/
theorem pid_cooldown_and_bound (st : PIDControllerState) (price supply : Nat) (ts : Int) :
    (ts - st.last_adjustment_timestamp < st.adjustment_cooldown →
      st.calculate_adjustment price supply ts = .error .AdjustmentTooSoon) ∧
    (∀ st' adj, st.calculate_adjustment price supply ts = .ok (st', adj) →
      (adj.adjustment_type = .Burn → adj.amount ≤ supply * st.max_burn_rate_bps / 10000) ∧
      (adj.adjustment_type = .Mint → adj.amount ≤ supply * st.max_mint_rate_bps / 10000) ∧
      (adj.adjustment_type ≠ .NoAdjustment → st'.last_adjustment_timestamp = ts)) := by
  constructor
  · intro hcd
    unfold PIDControllerState.calculate_adjustment
    rw [if_pos hcd]
  · intro st' adj hok
    unfold PIDControllerState.calculate_adjustment at hok
    split at hok
    · exact absurd hok (by simp)
    · split at hok
      · cases hok
        exact ⟨fun _ => Nat.zero_le _, fun _ => Nat.zero_le _, fun h => absurd rfl h⟩
      · cases hok
        refine ⟨?_, ?_, fun _ => rfl⟩
        · intro hty
          by_cases hop : 0 < pidOutputBps st (pidErrorOf st price) (pidDtOf st ts)
          · unfold pidAmount
            rw [show pidBranch st (pidErrorOf st price) (pidDtOf st ts) =
              (.Burn, (st.max_burn_rate_bps : Int)) from by
                unfold pidBranch; rw [if_pos hop]]
            simp only [Int.natAbs_ofNat]
            exact pid_amount_le supply st.max_burn_rate_bps _
          · rw [show pidBranch st (pidErrorOf st price) (pidDtOf st ts) =
              (.Mint, -(st.max_mint_rate_bps : Int)) from by
                unfold pidBranch; rw [if_neg hop]] at hty
            exact absurd hty (by simp)
        · intro hty
          by_cases hop : 0 < pidOutputBps st (pidErrorOf st price) (pidDtOf st ts)
          · rw [show pidBranch st (pidErrorOf st price) (pidDtOf st ts) =
              (.Burn, (st.max_burn_rate_bps : Int)) from by
                unfold pidBranch; rw [if_pos hop]] at hty
            exact absurd hty (by simp)
          · unfold pidAmount
            rw [show pidBranch st (pidErrorOf st price) (pidDtOf st ts) =
              (.Mint, -(st.max_mint_rate_bps : Int)) from by
                unfold pidBranch; rw [if_neg hop]]
            simp only [Int.natAbs_neg, Int.natAbs_ofNat]
            exact pid_amount_le supply st.max_mint_rate_bps _

set_option maxRecDepth 4000 in
/-- C8 witness: with a 100-second cooldown pending, the call is rejected;
without it, price 100 against target 200 burns 10000 of a 1000000
supply, within the 500 bps cap. -/
theorem pid_cooldown_and_bound_witness :
    ({ pidW with adjustment_cooldown := 100 } :
        PIDControllerState).calculate_adjustment 100 1000000 1 =
      .error .AdjustmentTooSoon ∧
    (10000 : Nat) ≤ 1000000 * pidW.max_burn_rate_bps / 10000 :=
  ⟨(pid_cooldown_and_bound { pidW with adjustment_cooldown := 100 } 100 1000000 1).1
      (by decide),
   ((pid_cooldown_and_bound pidW 100 1000000 1).2 pidW1
      { adjustment_type := .Burn, amount := 10000 } (by decide)).1 rfl⟩

/-- C9 counterexample: a volume-spike magnitude above 3× the base
threshold (ratio 31 against multiplier 10) is classified `High`, not
`Critical` — the volume-spike signal escalates to `Critical` only above
5×, unlike the other signals. -/
theorem volume_spike_not_critical_cex :
    c9Cb.volume_spike_multiplier * 3 < 31 / c9Cb.volume_1h_ago ∧
    c9Cb.check_volume_spike 31 = some CircuitBreakerSeverity.High := by
  decide

/-- C9 (amended): price volatility, supply change, liquidity drain and
oracle divergence all map their magnitude by the same multiples of the
base threshold (`>1×` Medium, `>2×` High, `>3×` Critical); the
volume-spike signal maps `>1×` Medium, `>2×` High but `>5×` Critical. -/
theorem breaker_severity_maps (cb : CircuitBreakerState)
    (p vol sup liq : Nat) (prices : List Nat)
    (hsup : cb.supply_24h_ago ≠ 0) (hvol : cb.volume_1h_ago ≠ 0)
    (hliq : cb.liquidity_1h_ago ≠ 0) (hlt : liq < cb.liquidity_1h_ago)
    (hpr : ¬ prices.length < 2) :
    cb.check_price_volatility p =
      specSeverityMap (volatility1h cb p) cb.price_volatility_threshold_bps ∧
    cb.check_supply_change sup =
      specSeverityMap (supplyChangeBps cb sup) cb.supply_change_threshold_bps ∧
    cb.check_liquidity_drain liq =
      specSeverityMap (drainBps cb liq) cb.liquidity_drain_threshold_bps ∧
    check_oracle_divergence prices cb.oracle_divergence_threshold_bps =
      specSeverityMap (divergenceBps prices) cb.oracle_divergence_threshold_bps ∧
    cb.check_volume_spike vol =
      volumeSeverityMap (vol / cb.volume_1h_ago) cb.volume_spike_multiplier := by
  refine ⟨rfl, ?_, ?_, ?_, ?_⟩
  · unfold CircuitBreakerState.check_supply_change specSeverityMap
    rw [if_neg hsup]
  · unfold CircuitBreakerState.check_liquidity_drain specSeverityMap
    rw [if_neg hliq, if_pos hlt]
  · unfold check_oracle_divergence specSeverityMap
    rw [if_neg hpr]
  · unfold CircuitBreakerState.check_volume_spike volumeSeverityMap
    rw [if_neg hvol]

/-- C9 witness for the amended theorem at concrete inputs. -/
theorem breaker_severity_maps_witness :
    c9Cb.check_price_volatility 20000 =
      specSeverityMap (volatility1h c9Cb 20000) c9Cb.price_volatility_threshold_bps ∧
    c9Cb.check_volume_spike 31 =
      volumeSeverityMap (31 / c9Cb.volume_1h_ago) c9Cb.volume_spike_multiplier :=
  ⟨(breaker_severity_maps c9Cb 20000 31 1200 500 [100, 150] (by decide) (by decide)
      (by decide) (by decide) (by decide)).1,
   (breaker_severity_maps c9Cb 20000 31 1200 500 [100, 150] (by decide) (by decide)
      (by decide) (by decide) (by decide)).2.2.2.2⟩

end Twist
